import Mathlib

/-!
Verification of the quantum-generative-art core pipeline.

Shallow embedding of `src/utils.py` and `src/quantum_canvas.py`:
the name → seed → parameter-vector → circuit → counts pipeline, the
two execution backends, and the result aggregation/serialization,
together with proofs of the specified properties.

Machine words are `Nat` with explicit reduction modulo `2^32`;
byte strings are `List Nat` with every element below `256`.
-/

namespace QGArt

/-! ## SHA-256 (the `hashlib.sha256` collaborator used by `hash_name_to_seed`)

A faithful executable implementation of FIPS 180-4 SHA-256 over byte lists.
Words are `Nat` kept below `2^32` by explicit `% 2^32` after every addition.
-/

/-- 32-bit word size. -/
def w32 : Nat := 2 ^ 32

/-- Right rotation of a 32-bit word by `n` places. -/
def rotr (n x : Nat) : Nat := x / 2 ^ n + x % 2 ^ n * 2 ^ (32 - n)

/-- Bitwise XOR (on `Nat`, used only on values below `2^32`). -/
def bxor (a b : Nat) : Nat := Nat.xor a b

/-- SHA-256 small sigma 0: `rotr 7 ^^^ rotr 18 ^^^ shr 3`. -/
def ssig0 (x : Nat) : Nat := bxor (bxor (rotr 7 x) (rotr 18 x)) (x / 2 ^ 3)

/-- SHA-256 small sigma 1: `rotr 17 ^^^ rotr 19 ^^^ shr 10`. -/
def ssig1 (x : Nat) : Nat := bxor (bxor (rotr 17 x) (rotr 19 x)) (x / 2 ^ 10)

/-- SHA-256 big Sigma 0: `rotr 2 ^^^ rotr 13 ^^^ rotr 22`. -/
def bsig0 (x : Nat) : Nat := bxor (bxor (rotr 2 x) (rotr 13 x)) (rotr 22 x)

/-- SHA-256 big Sigma 1: `rotr 6 ^^^ rotr 11 ^^^ rotr 25`. -/
def bsig1 (x : Nat) : Nat := bxor (bxor (rotr 6 x) (rotr 11 x)) (rotr 25 x)

/-- SHA-256 choice function. -/
def chf (x y z : Nat) : Nat := bxor (Nat.land x y) (Nat.land (w32 - 1 - x % w32) z)

/-- SHA-256 majority function. -/
def maj (x y z : Nat) : Nat :=
  bxor (bxor (Nat.land x y) (Nat.land x z)) (Nat.land y z)

/-- The 64 SHA-256 round constants of FIPS 180-4 (`0x428a2f98`, …,
`0xc67178f2`), written in decimal. -/
def K256 : List Nat :=
  [1116352408, 1899447441, 3049323471, 3921009573, 961987163,
   1508970993, 2453635748, 2870763221, 3624381080, 310598401,
   607225278, 1426881987, 1925078388, 2162078206, 2614888103,
   3248222580, 3835390401, 4022224774, 264347078, 604807628,
   770255983, 1249150122, 1555081692, 1996064986, 2554220882,
   2821834349, 2952996808, 3210313671, 3336571891, 3584528711,
   113926993, 338241895, 666307205, 773529912, 1294757372,
   1396182291, 1695183700, 1986661051, 2177026350, 2456956037,
   2730485921, 2820302411, 3259730800, 3345764771, 3516065817,
   3600352804, 4094571909, 275423344, 430227734, 506948616,
   659060556, 883997877, 958139571, 1322822218, 1537002063,
   1747873779, 1955562222, 2024104815, 2227730452, 2361852424,
   2428436474, 2756734187, 3204031479, 3329325298]

/-- The SHA-256 working state: eight 32-bit words. -/
structure Sha8 where
  a : Nat
  b : Nat
  c : Nat
  d : Nat
  e : Nat
  f : Nat
  g : Nat
  h : Nat
deriving Repr, DecidableEq

/-- The SHA-256 initial hash value of FIPS 180-4 (`0x6a09e667`, …,
`0x5be0cd19`), written in decimal. -/
def sha256Init : Sha8 :=
  ⟨1779033703, 3144134277, 1013904242, 2773480762,
   1359893119, 2600822924, 528734635, 1541459225⟩

/-- Pad a byte message per FIPS 180-4: append `0x80`, zero bytes up to
56 mod 64, then the 64-bit big-endian bit length. -/
def sha256Pad (msg : List Nat) : List Nat :=
  let len := msg.length
  let padLen := (120 - (len + 1) % 64) % 64
  let bitLen := (len * 8) % 2 ^ 64
  msg ++ [0x80] ++ List.replicate padLen 0 ++
    [bitLen / 2 ^ 56 % 256, bitLen / 2 ^ 48 % 256, bitLen / 2 ^ 40 % 256,
     bitLen / 2 ^ 32 % 256, bitLen / 2 ^ 24 % 256, bitLen / 2 ^ 16 % 256,
     bitLen / 2 ^ 8 % 256, bitLen % 256]

/-- Split a list into chunks of 64 elements (structural recursion on a
fuel bound so the definition reduces in the kernel). -/
def chunks64Go : Nat → List Nat → List (List Nat)
  | 0, _ => []
  | _, [] => []
  | fuel + 1, l => l.take 64 :: chunks64Go fuel (l.drop 64)

/-- Split a list into chunks of 64 elements. -/
def chunks64 (l : List Nat) : List (List Nat) :=
  chunks64Go l.length l

/-- Read one big-endian 32-bit word from four bytes. -/
def word4 (b0 b1 b2 b3 : Nat) : Nat :=
  b0 * 2 ^ 24 + b1 * 2 ^ 16 + b2 * 2 ^ 8 + b3

/-- A 64-byte block as its sixteen big-endian 32-bit words. -/
def blockWords : List Nat → List Nat
  | b0 :: b1 :: b2 :: b3 :: rest => word4 b0 b1 b2 b3 :: blockWords rest
  | _ => []

/-- One step of the SHA-256 message-schedule extension. -/
def scheduleStep (ws : List Nat) : List Nat :=
  let n := ws.length
  ws ++ [(ssig1 (ws.getD (n - 2) 0) + ws.getD (n - 7) 0 +
          ssig0 (ws.getD (n - 15) 0) + ws.getD (n - 16) 0) % w32]

/-- Extend sixteen schedule words to sixty-four. -/
def schedule (ws : List Nat) : List Nat :=
  (scheduleStep^[48]) ws

/-- One SHA-256 compression round with schedule word `wi` and constant `ki`. -/
def shaRound (st : Sha8) (wk : Nat × Nat) : Sha8 :=
  let t1 := (st.h + bsig1 st.e + chf st.e st.f st.g + wk.2 + wk.1) % w32
  let t2 := (bsig0 st.a + maj st.a st.b st.c) % w32
  ⟨(t1 + t2) % w32, st.a, st.b, st.c, (st.d + t1) % w32, st.e, st.f, st.g⟩

/-- Compress one 64-byte block into the running hash state. -/
def shaBlock (st : Sha8) (block : List Nat) : Sha8 :=
  let ws := schedule (blockWords block)
  let r := (ws.zip K256).foldl shaRound st
  ⟨(st.a + r.a) % w32, (st.b + r.b) % w32, (st.c + r.c) % w32,
   (st.d + r.d) % w32, (st.e + r.e) % w32, (st.f + r.f) % w32,
   (st.g + r.g) % w32, (st.h + r.h) % w32⟩

/-- A 32-bit word as its four big-endian bytes (each reduced mod 256). -/
def wordBytes (x : Nat) : List Nat :=
  [x / 2 ^ 24 % 256, x / 2 ^ 16 % 256, x / 2 ^ 8 % 256, x % 256]

/-- SHA-256 of a byte message: the 32 digest bytes in emission order. -/
def sha256 (msg : List Nat) : List Nat :=
  let f := (chunks64 (sha256Pad msg)).foldl shaBlock sha256Init
  wordBytes f.a ++ wordBytes f.b ++ wordBytes f.c ++ wordBytes f.d ++
    wordBytes f.e ++ wordBytes f.f ++ wordBytes f.g ++ wordBytes f.h

/-! ## String normalization and UTF-8 encoding (`name.strip().lower().encode`)

Faithful models of Python's default `str.strip()` and `str.lower()`: the
whitespace set, the full per-character lowercase mapping, and the
contextual capital-sigma rule, with the character data of CPython's
Unicode database embedded below.
-/

/-- The 29 code points Python's `str.isspace()` — and therefore the default
`str.strip()` — treats as whitespace (ASCII controls 9–13 and 28–31, space,
NEL, NBSP, and the Unicode space separators), as in CPython's database. -/
def pyWhitespace : List Nat :=
  [9, 10, 11, 12, 13, 28, 29, 30, 31, 32, 133, 160, 5760, 8192, 8193, 8194, 8195, 8196, 8197, 8198, 8199, 8200, 8201, 8202, 8232, 8233, 8239, 8287, 12288]

/-- Section 0 of the `str.lower()` mapping table. -/
def lowerTable0 : List (Nat × Nat) :=
  [(65, 97), (66, 98), (67, 99), (68, 100), (69, 101),
   (70, 102), (71, 103), (72, 104), (73, 105), (74, 106),
   (75, 107), (76, 108), (77, 109), (78, 110), (79, 111),
   (80, 112), (81, 113), (82, 114), (83, 115), (84, 116),
   (85, 117), (86, 118), (87, 119), (88, 120), (89, 121),
   (90, 122), (192, 224), (193, 225), (194, 226), (195, 227),
   (196, 228), (197, 229), (198, 230), (199, 231), (200, 232),
   (201, 233), (202, 234), (203, 235), (204, 236), (205, 237),
   (206, 238), (207, 239), (208, 240), (209, 241), (210, 242),
   (211, 243), (212, 244), (213, 245), (214, 246), (216, 248),
   (217, 249), (218, 250), (219, 251), (220, 252), (221, 253),
   (222, 254), (256, 257), (258, 259), (260, 261), (262, 263),
   (264, 265), (266, 267), (268, 269), (270, 271), (272, 273),
   (274, 275), (276, 277), (278, 279), (280, 281), (282, 283),
   (284, 285), (286, 287), (288, 289), (290, 291), (292, 293),
   (294, 295), (296, 297), (298, 299), (300, 301), (302, 303),
   (306, 307), (308, 309), (310, 311), (313, 314), (315, 316),
   (317, 318), (319, 320), (321, 322), (323, 324), (325, 326),
   (327, 328), (330, 331), (332, 333), (334, 335), (336, 337),
   (338, 339), (340, 341), (342, 343), (344, 345), (346, 347),
   (348, 349), (350, 351), (352, 353), (354, 355), (356, 357),
   (358, 359), (360, 361), (362, 363), (364, 365), (366, 367),
   (368, 369), (370, 371), (372, 373), (374, 375), (376, 255),
   (377, 378), (379, 380), (381, 382), (385, 595), (386, 387),
   (388, 389), (390, 596), (391, 392), (393, 598), (394, 599),
   (395, 396), (398, 477), (399, 601), (400, 603), (401, 402),
   (403, 608), (404, 611), (406, 617), (407, 616), (408, 409),
   (412, 623), (413, 626), (415, 629), (416, 417), (418, 419),
   (420, 421), (422, 640), (423, 424), (425, 643), (428, 429),
   (430, 648), (431, 432), (433, 650), (434, 651), (435, 436),
   (437, 438), (439, 658), (440, 441), (444, 445), (452, 454),
   (453, 454), (455, 457), (456, 457), (458, 460), (459, 460),
   (461, 462), (463, 464), (465, 466), (467, 468), (469, 470),
   (471, 472), (473, 474), (475, 476), (478, 479), (480, 481),
   (482, 483), (484, 485), (486, 487), (488, 489), (490, 491),
   (492, 493), (494, 495), (497, 499), (498, 499), (500, 501),
   (502, 405), (503, 447), (504, 505), (506, 507), (508, 509),
   (510, 511), (512, 513), (514, 515), (516, 517), (518, 519),
   (520, 521), (522, 523), (524, 525), (526, 527), (528, 529),
   (530, 531), (532, 533), (534, 535), (536, 537), (538, 539)]

/-- Section 1 of the `str.lower()` mapping table. -/
def lowerTable1 : List (Nat × Nat) :=
  [(540, 541), (542, 543), (544, 414), (546, 547), (548, 549),
   (550, 551), (552, 553), (554, 555), (556, 557), (558, 559),
   (560, 561), (562, 563), (570, 11365), (571, 572), (573, 410),
   (574, 11366), (577, 578), (579, 384), (580, 649), (581, 652),
   (582, 583), (584, 585), (586, 587), (588, 589), (590, 591),
   (880, 881), (882, 883), (886, 887), (895, 1011), (902, 940),
   (904, 941), (905, 942), (906, 943), (908, 972), (910, 973),
   (911, 974), (913, 945), (914, 946), (915, 947), (916, 948),
   (917, 949), (918, 950), (919, 951), (920, 952), (921, 953),
   (922, 954), (923, 955), (924, 956), (925, 957), (926, 958),
   (927, 959), (928, 960), (929, 961), (932, 964), (933, 965),
   (934, 966), (935, 967), (936, 968), (937, 969), (938, 970),
   (939, 971), (975, 983), (984, 985), (986, 987), (988, 989),
   (990, 991), (992, 993), (994, 995), (996, 997), (998, 999),
   (1000, 1001), (1002, 1003), (1004, 1005), (1006, 1007), (1012, 952),
   (1015, 1016), (1017, 1010), (1018, 1019), (1021, 891), (1022, 892),
   (1023, 893), (1024, 1104), (1025, 1105), (1026, 1106), (1027, 1107),
   (1028, 1108), (1029, 1109), (1030, 1110), (1031, 1111), (1032, 1112),
   (1033, 1113), (1034, 1114), (1035, 1115), (1036, 1116), (1037, 1117),
   (1038, 1118), (1039, 1119), (1040, 1072), (1041, 1073), (1042, 1074),
   (1043, 1075), (1044, 1076), (1045, 1077), (1046, 1078), (1047, 1079),
   (1048, 1080), (1049, 1081), (1050, 1082), (1051, 1083), (1052, 1084),
   (1053, 1085), (1054, 1086), (1055, 1087), (1056, 1088), (1057, 1089),
   (1058, 1090), (1059, 1091), (1060, 1092), (1061, 1093), (1062, 1094),
   (1063, 1095), (1064, 1096), (1065, 1097), (1066, 1098), (1067, 1099),
   (1068, 1100), (1069, 1101), (1070, 1102), (1071, 1103), (1120, 1121),
   (1122, 1123), (1124, 1125), (1126, 1127), (1128, 1129), (1130, 1131),
   (1132, 1133), (1134, 1135), (1136, 1137), (1138, 1139), (1140, 1141),
   (1142, 1143), (1144, 1145), (1146, 1147), (1148, 1149), (1150, 1151),
   (1152, 1153), (1162, 1163), (1164, 1165), (1166, 1167), (1168, 1169),
   (1170, 1171), (1172, 1173), (1174, 1175), (1176, 1177), (1178, 1179),
   (1180, 1181), (1182, 1183), (1184, 1185), (1186, 1187), (1188, 1189),
   (1190, 1191), (1192, 1193), (1194, 1195), (1196, 1197), (1198, 1199),
   (1200, 1201), (1202, 1203), (1204, 1205), (1206, 1207), (1208, 1209),
   (1210, 1211), (1212, 1213), (1214, 1215), (1216, 1231), (1217, 1218),
   (1219, 1220), (1221, 1222), (1223, 1224), (1225, 1226), (1227, 1228),
   (1229, 1230), (1232, 1233), (1234, 1235), (1236, 1237), (1238, 1239),
   (1240, 1241), (1242, 1243), (1244, 1245), (1246, 1247), (1248, 1249),
   (1250, 1251), (1252, 1253), (1254, 1255), (1256, 1257), (1258, 1259),
   (1260, 1261), (1262, 1263), (1264, 1265), (1266, 1267), (1268, 1269)]

/-- Section 2 of the `str.lower()` mapping table. -/
def lowerTable2 : List (Nat × Nat) :=
  [(1270, 1271), (1272, 1273), (1274, 1275), (1276, 1277), (1278, 1279),
   (1280, 1281), (1282, 1283), (1284, 1285), (1286, 1287), (1288, 1289),
   (1290, 1291), (1292, 1293), (1294, 1295), (1296, 1297), (1298, 1299),
   (1300, 1301), (1302, 1303), (1304, 1305), (1306, 1307), (1308, 1309),
   (1310, 1311), (1312, 1313), (1314, 1315), (1316, 1317), (1318, 1319),
   (1320, 1321), (1322, 1323), (1324, 1325), (1326, 1327), (1329, 1377),
   (1330, 1378), (1331, 1379), (1332, 1380), (1333, 1381), (1334, 1382),
   (1335, 1383), (1336, 1384), (1337, 1385), (1338, 1386), (1339, 1387),
   (1340, 1388), (1341, 1389), (1342, 1390), (1343, 1391), (1344, 1392),
   (1345, 1393), (1346, 1394), (1347, 1395), (1348, 1396), (1349, 1397),
   (1350, 1398), (1351, 1399), (1352, 1400), (1353, 1401), (1354, 1402),
   (1355, 1403), (1356, 1404), (1357, 1405), (1358, 1406), (1359, 1407),
   (1360, 1408), (1361, 1409), (1362, 1410), (1363, 1411), (1364, 1412),
   (1365, 1413), (1366, 1414), (4256, 11520), (4257, 11521), (4258, 11522),
   (4259, 11523), (4260, 11524), (4261, 11525), (4262, 11526), (4263, 11527),
   (4264, 11528), (4265, 11529), (4266, 11530), (4267, 11531), (4268, 11532),
   (4269, 11533), (4270, 11534), (4271, 11535), (4272, 11536), (4273, 11537),
   (4274, 11538), (4275, 11539), (4276, 11540), (4277, 11541), (4278, 11542),
   (4279, 11543), (4280, 11544), (4281, 11545), (4282, 11546), (4283, 11547),
   (4284, 11548), (4285, 11549), (4286, 11550), (4287, 11551), (4288, 11552),
   (4289, 11553), (4290, 11554), (4291, 11555), (4292, 11556), (4293, 11557),
   (4295, 11559), (4301, 11565), (5024, 43888), (5025, 43889), (5026, 43890),
   (5027, 43891), (5028, 43892), (5029, 43893), (5030, 43894), (5031, 43895),
   (5032, 43896), (5033, 43897), (5034, 43898), (5035, 43899), (5036, 43900),
   (5037, 43901), (5038, 43902), (5039, 43903), (5040, 43904), (5041, 43905),
   (5042, 43906), (5043, 43907), (5044, 43908), (5045, 43909), (5046, 43910),
   (5047, 43911), (5048, 43912), (5049, 43913), (5050, 43914), (5051, 43915),
   (5052, 43916), (5053, 43917), (5054, 43918), (5055, 43919), (5056, 43920),
   (5057, 43921), (5058, 43922), (5059, 43923), (5060, 43924), (5061, 43925),
   (5062, 43926), (5063, 43927), (5064, 43928), (5065, 43929), (5066, 43930),
   (5067, 43931), (5068, 43932), (5069, 43933), (5070, 43934), (5071, 43935),
   (5072, 43936), (5073, 43937), (5074, 43938), (5075, 43939), (5076, 43940),
   (5077, 43941), (5078, 43942), (5079, 43943), (5080, 43944), (5081, 43945),
   (5082, 43946), (5083, 43947), (5084, 43948), (5085, 43949), (5086, 43950),
   (5087, 43951), (5088, 43952), (5089, 43953), (5090, 43954), (5091, 43955),
   (5092, 43956), (5093, 43957), (5094, 43958), (5095, 43959), (5096, 43960),
   (5097, 43961), (5098, 43962), (5099, 43963), (5100, 43964), (5101, 43965),
   (5102, 43966), (5103, 43967), (5104, 5112), (5105, 5113), (5106, 5114),
   (5107, 5115), (5108, 5116), (5109, 5117), (7312, 4304), (7313, 4305),
   (7314, 4306), (7315, 4307), (7316, 4308), (7317, 4309), (7318, 4310)]

/-- Section 3 of the `str.lower()` mapping table. -/
def lowerTable3 : List (Nat × Nat) :=
  [(7319, 4311), (7320, 4312), (7321, 4313), (7322, 4314), (7323, 4315),
   (7324, 4316), (7325, 4317), (7326, 4318), (7327, 4319), (7328, 4320),
   (7329, 4321), (7330, 4322), (7331, 4323), (7332, 4324), (7333, 4325),
   (7334, 4326), (7335, 4327), (7336, 4328), (7337, 4329), (7338, 4330),
   (7339, 4331), (7340, 4332), (7341, 4333), (7342, 4334), (7343, 4335),
   (7344, 4336), (7345, 4337), (7346, 4338), (7347, 4339), (7348, 4340),
   (7349, 4341), (7350, 4342), (7351, 4343), (7352, 4344), (7353, 4345),
   (7354, 4346), (7357, 4349), (7358, 4350), (7359, 4351), (7680, 7681),
   (7682, 7683), (7684, 7685), (7686, 7687), (7688, 7689), (7690, 7691),
   (7692, 7693), (7694, 7695), (7696, 7697), (7698, 7699), (7700, 7701),
   (7702, 7703), (7704, 7705), (7706, 7707), (7708, 7709), (7710, 7711),
   (7712, 7713), (7714, 7715), (7716, 7717), (7718, 7719), (7720, 7721),
   (7722, 7723), (7724, 7725), (7726, 7727), (7728, 7729), (7730, 7731),
   (7732, 7733), (7734, 7735), (7736, 7737), (7738, 7739), (7740, 7741),
   (7742, 7743), (7744, 7745), (7746, 7747), (7748, 7749), (7750, 7751),
   (7752, 7753), (7754, 7755), (7756, 7757), (7758, 7759), (7760, 7761),
   (7762, 7763), (7764, 7765), (7766, 7767), (7768, 7769), (7770, 7771),
   (7772, 7773), (7774, 7775), (7776, 7777), (7778, 7779), (7780, 7781),
   (7782, 7783), (7784, 7785), (7786, 7787), (7788, 7789), (7790, 7791),
   (7792, 7793), (7794, 7795), (7796, 7797), (7798, 7799), (7800, 7801),
   (7802, 7803), (7804, 7805), (7806, 7807), (7808, 7809), (7810, 7811),
   (7812, 7813), (7814, 7815), (7816, 7817), (7818, 7819), (7820, 7821),
   (7822, 7823), (7824, 7825), (7826, 7827), (7828, 7829), (7838, 223),
   (7840, 7841), (7842, 7843), (7844, 7845), (7846, 7847), (7848, 7849),
   (7850, 7851), (7852, 7853), (7854, 7855), (7856, 7857), (7858, 7859),
   (7860, 7861), (7862, 7863), (7864, 7865), (7866, 7867), (7868, 7869),
   (7870, 7871), (7872, 7873), (7874, 7875), (7876, 7877), (7878, 7879),
   (7880, 7881), (7882, 7883), (7884, 7885), (7886, 7887), (7888, 7889),
   (7890, 7891), (7892, 7893), (7894, 7895), (7896, 7897), (7898, 7899),
   (7900, 7901), (7902, 7903), (7904, 7905), (7906, 7907), (7908, 7909),
   (7910, 7911), (7912, 7913), (7914, 7915), (7916, 7917), (7918, 7919),
   (7920, 7921), (7922, 7923), (7924, 7925), (7926, 7927), (7928, 7929),
   (7930, 7931), (7932, 7933), (7934, 7935), (7944, 7936), (7945, 7937),
   (7946, 7938), (7947, 7939), (7948, 7940), (7949, 7941), (7950, 7942),
   (7951, 7943), (7960, 7952), (7961, 7953), (7962, 7954), (7963, 7955),
   (7964, 7956), (7965, 7957), (7976, 7968), (7977, 7969), (7978, 7970),
   (7979, 7971), (7980, 7972), (7981, 7973), (7982, 7974), (7983, 7975),
   (7992, 7984), (7993, 7985), (7994, 7986), (7995, 7987), (7996, 7988),
   (7997, 7989), (7998, 7990), (7999, 7991), (8008, 8000), (8009, 8001),
   (8010, 8002), (8011, 8003), (8012, 8004), (8013, 8005), (8025, 8017)]

/-- Section 4 of the `str.lower()` mapping table. -/
def lowerTable4 : List (Nat × Nat) :=
  [(8027, 8019), (8029, 8021), (8031, 8023), (8040, 8032), (8041, 8033),
   (8042, 8034), (8043, 8035), (8044, 8036), (8045, 8037), (8046, 8038),
   (8047, 8039), (8072, 8064), (8073, 8065), (8074, 8066), (8075, 8067),
   (8076, 8068), (8077, 8069), (8078, 8070), (8079, 8071), (8088, 8080),
   (8089, 8081), (8090, 8082), (8091, 8083), (8092, 8084), (8093, 8085),
   (8094, 8086), (8095, 8087), (8104, 8096), (8105, 8097), (8106, 8098),
   (8107, 8099), (8108, 8100), (8109, 8101), (8110, 8102), (8111, 8103),
   (8120, 8112), (8121, 8113), (8122, 8048), (8123, 8049), (8124, 8115),
   (8136, 8050), (8137, 8051), (8138, 8052), (8139, 8053), (8140, 8131),
   (8152, 8144), (8153, 8145), (8154, 8054), (8155, 8055), (8168, 8160),
   (8169, 8161), (8170, 8058), (8171, 8059), (8172, 8165), (8184, 8056),
   (8185, 8057), (8186, 8060), (8187, 8061), (8188, 8179), (8486, 969),
   (8490, 107), (8491, 229), (8498, 8526), (8544, 8560), (8545, 8561),
   (8546, 8562), (8547, 8563), (8548, 8564), (8549, 8565), (8550, 8566),
   (8551, 8567), (8552, 8568), (8553, 8569), (8554, 8570), (8555, 8571),
   (8556, 8572), (8557, 8573), (8558, 8574), (8559, 8575), (8579, 8580),
   (9398, 9424), (9399, 9425), (9400, 9426), (9401, 9427), (9402, 9428),
   (9403, 9429), (9404, 9430), (9405, 9431), (9406, 9432), (9407, 9433),
   (9408, 9434), (9409, 9435), (9410, 9436), (9411, 9437), (9412, 9438),
   (9413, 9439), (9414, 9440), (9415, 9441), (9416, 9442), (9417, 9443),
   (9418, 9444), (9419, 9445), (9420, 9446), (9421, 9447), (9422, 9448),
   (9423, 9449), (11264, 11312), (11265, 11313), (11266, 11314), (11267, 11315),
   (11268, 11316), (11269, 11317), (11270, 11318), (11271, 11319), (11272, 11320),
   (11273, 11321), (11274, 11322), (11275, 11323), (11276, 11324), (11277, 11325),
   (11278, 11326), (11279, 11327), (11280, 11328), (11281, 11329), (11282, 11330),
   (11283, 11331), (11284, 11332), (11285, 11333), (11286, 11334), (11287, 11335),
   (11288, 11336), (11289, 11337), (11290, 11338), (11291, 11339), (11292, 11340),
   (11293, 11341), (11294, 11342), (11295, 11343), (11296, 11344), (11297, 11345),
   (11298, 11346), (11299, 11347), (11300, 11348), (11301, 11349), (11302, 11350),
   (11303, 11351), (11304, 11352), (11305, 11353), (11306, 11354), (11307, 11355),
   (11308, 11356), (11309, 11357), (11310, 11358), (11311, 11359), (11360, 11361),
   (11362, 619), (11363, 7549), (11364, 637), (11367, 11368), (11369, 11370),
   (11371, 11372), (11373, 593), (11374, 625), (11375, 592), (11376, 594),
   (11378, 11379), (11381, 11382), (11390, 575), (11391, 576), (11392, 11393),
   (11394, 11395), (11396, 11397), (11398, 11399), (11400, 11401), (11402, 11403),
   (11404, 11405), (11406, 11407), (11408, 11409), (11410, 11411), (11412, 11413),
   (11414, 11415), (11416, 11417), (11418, 11419), (11420, 11421), (11422, 11423),
   (11424, 11425), (11426, 11427), (11428, 11429), (11430, 11431), (11432, 11433),
   (11434, 11435), (11436, 11437), (11438, 11439), (11440, 11441), (11442, 11443),
   (11444, 11445), (11446, 11447), (11448, 11449), (11450, 11451), (11452, 11453)]

/-- Section 5 of the `str.lower()` mapping table. -/
def lowerTable5 : List (Nat × Nat) :=
  [(11454, 11455), (11456, 11457), (11458, 11459), (11460, 11461), (11462, 11463),
   (11464, 11465), (11466, 11467), (11468, 11469), (11470, 11471), (11472, 11473),
   (11474, 11475), (11476, 11477), (11478, 11479), (11480, 11481), (11482, 11483),
   (11484, 11485), (11486, 11487), (11488, 11489), (11490, 11491), (11499, 11500),
   (11501, 11502), (11506, 11507), (42560, 42561), (42562, 42563), (42564, 42565),
   (42566, 42567), (42568, 42569), (42570, 42571), (42572, 42573), (42574, 42575),
   (42576, 42577), (42578, 42579), (42580, 42581), (42582, 42583), (42584, 42585),
   (42586, 42587), (42588, 42589), (42590, 42591), (42592, 42593), (42594, 42595),
   (42596, 42597), (42598, 42599), (42600, 42601), (42602, 42603), (42604, 42605),
   (42624, 42625), (42626, 42627), (42628, 42629), (42630, 42631), (42632, 42633),
   (42634, 42635), (42636, 42637), (42638, 42639), (42640, 42641), (42642, 42643),
   (42644, 42645), (42646, 42647), (42648, 42649), (42650, 42651), (42786, 42787),
   (42788, 42789), (42790, 42791), (42792, 42793), (42794, 42795), (42796, 42797),
   (42798, 42799), (42802, 42803), (42804, 42805), (42806, 42807), (42808, 42809),
   (42810, 42811), (42812, 42813), (42814, 42815), (42816, 42817), (42818, 42819),
   (42820, 42821), (42822, 42823), (42824, 42825), (42826, 42827), (42828, 42829),
   (42830, 42831), (42832, 42833), (42834, 42835), (42836, 42837), (42838, 42839),
   (42840, 42841), (42842, 42843), (42844, 42845), (42846, 42847), (42848, 42849),
   (42850, 42851), (42852, 42853), (42854, 42855), (42856, 42857), (42858, 42859),
   (42860, 42861), (42862, 42863), (42873, 42874), (42875, 42876), (42877, 7545),
   (42878, 42879), (42880, 42881), (42882, 42883), (42884, 42885), (42886, 42887),
   (42891, 42892), (42893, 613), (42896, 42897), (42898, 42899), (42902, 42903),
   (42904, 42905), (42906, 42907), (42908, 42909), (42910, 42911), (42912, 42913),
   (42914, 42915), (42916, 42917), (42918, 42919), (42920, 42921), (42922, 614),
   (42923, 604), (42924, 609), (42925, 620), (42926, 618), (42928, 670),
   (42929, 647), (42930, 669), (42931, 43859), (42932, 42933), (42934, 42935),
   (42936, 42937), (42938, 42939), (42940, 42941), (42942, 42943), (42944, 42945),
   (42946, 42947), (42948, 42900), (42949, 642), (42950, 7566), (42951, 42952),
   (42953, 42954), (42960, 42961), (42966, 42967), (42968, 42969), (42997, 42998),
   (65313, 65345), (65314, 65346), (65315, 65347), (65316, 65348), (65317, 65349),
   (65318, 65350), (65319, 65351), (65320, 65352), (65321, 65353), (65322, 65354),
   (65323, 65355), (65324, 65356), (65325, 65357), (65326, 65358), (65327, 65359),
   (65328, 65360), (65329, 65361), (65330, 65362), (65331, 65363), (65332, 65364),
   (65333, 65365), (65334, 65366), (65335, 65367), (65336, 65368), (65337, 65369),
   (65338, 65370), (66560, 66600), (66561, 66601), (66562, 66602), (66563, 66603),
   (66564, 66604), (66565, 66605), (66566, 66606), (66567, 66607), (66568, 66608),
   (66569, 66609), (66570, 66610), (66571, 66611), (66572, 66612), (66573, 66613),
   (66574, 66614), (66575, 66615), (66576, 66616), (66577, 66617), (66578, 66618),
   (66579, 66619), (66580, 66620), (66581, 66621), (66582, 66622), (66583, 66623),
   (66584, 66624), (66585, 66625), (66586, 66626), (66587, 66627), (66588, 66628)]

/-- Section 6 of the `str.lower()` mapping table. -/
def lowerTable6 : List (Nat × Nat) :=
  [(66589, 66629), (66590, 66630), (66591, 66631), (66592, 66632), (66593, 66633),
   (66594, 66634), (66595, 66635), (66596, 66636), (66597, 66637), (66598, 66638),
   (66599, 66639), (66736, 66776), (66737, 66777), (66738, 66778), (66739, 66779),
   (66740, 66780), (66741, 66781), (66742, 66782), (66743, 66783), (66744, 66784),
   (66745, 66785), (66746, 66786), (66747, 66787), (66748, 66788), (66749, 66789),
   (66750, 66790), (66751, 66791), (66752, 66792), (66753, 66793), (66754, 66794),
   (66755, 66795), (66756, 66796), (66757, 66797), (66758, 66798), (66759, 66799),
   (66760, 66800), (66761, 66801), (66762, 66802), (66763, 66803), (66764, 66804),
   (66765, 66805), (66766, 66806), (66767, 66807), (66768, 66808), (66769, 66809),
   (66770, 66810), (66771, 66811), (66928, 66967), (66929, 66968), (66930, 66969),
   (66931, 66970), (66932, 66971), (66933, 66972), (66934, 66973), (66935, 66974),
   (66936, 66975), (66937, 66976), (66938, 66977), (66940, 66979), (66941, 66980),
   (66942, 66981), (66943, 66982), (66944, 66983), (66945, 66984), (66946, 66985),
   (66947, 66986), (66948, 66987), (66949, 66988), (66950, 66989), (66951, 66990),
   (66952, 66991), (66953, 66992), (66954, 66993), (66956, 66995), (66957, 66996),
   (66958, 66997), (66959, 66998), (66960, 66999), (66961, 67000), (66962, 67001),
   (66964, 67003), (66965, 67004), (68736, 68800), (68737, 68801), (68738, 68802),
   (68739, 68803), (68740, 68804), (68741, 68805), (68742, 68806), (68743, 68807),
   (68744, 68808), (68745, 68809), (68746, 68810), (68747, 68811), (68748, 68812),
   (68749, 68813), (68750, 68814), (68751, 68815), (68752, 68816), (68753, 68817),
   (68754, 68818), (68755, 68819), (68756, 68820), (68757, 68821), (68758, 68822),
   (68759, 68823), (68760, 68824), (68761, 68825), (68762, 68826), (68763, 68827),
   (68764, 68828), (68765, 68829), (68766, 68830), (68767, 68831), (68768, 68832),
   (68769, 68833), (68770, 68834), (68771, 68835), (68772, 68836), (68773, 68837),
   (68774, 68838), (68775, 68839), (68776, 68840), (68777, 68841), (68778, 68842),
   (68779, 68843), (68780, 68844), (68781, 68845), (68782, 68846), (68783, 68847),
   (68784, 68848), (68785, 68849), (68786, 68850), (71840, 71872), (71841, 71873),
   (71842, 71874), (71843, 71875), (71844, 71876), (71845, 71877), (71846, 71878),
   (71847, 71879), (71848, 71880), (71849, 71881), (71850, 71882), (71851, 71883),
   (71852, 71884), (71853, 71885), (71854, 71886), (71855, 71887), (71856, 71888),
   (71857, 71889), (71858, 71890), (71859, 71891), (71860, 71892), (71861, 71893),
   (71862, 71894), (71863, 71895), (71864, 71896), (71865, 71897), (71866, 71898),
   (71867, 71899), (71868, 71900), (71869, 71901), (71870, 71902), (71871, 71903),
   (93760, 93792), (93761, 93793), (93762, 93794), (93763, 93795), (93764, 93796),
   (93765, 93797), (93766, 93798), (93767, 93799), (93768, 93800), (93769, 93801),
   (93770, 93802), (93771, 93803), (93772, 93804), (93773, 93805), (93774, 93806),
   (93775, 93807), (93776, 93808), (93777, 93809), (93778, 93810), (93779, 93811),
   (93780, 93812), (93781, 93813), (93782, 93814), (93783, 93815), (93784, 93816),
   (93785, 93817), (93786, 93818), (93787, 93819), (93788, 93820), (93789, 93821),
   (93790, 93822), (93791, 93823), (125184, 125218), (125185, 125219), (125186, 125220)]

/-- Section 7 of the `str.lower()` mapping table. -/
def lowerTable7 : List (Nat × Nat) :=
  [(125187, 125221), (125188, 125222), (125189, 125223), (125190, 125224), (125191, 125225),
   (125192, 125226), (125193, 125227), (125194, 125228), (125195, 125229), (125196, 125230),
   (125197, 125231), (125198, 125232), (125199, 125233), (125200, 125234), (125201, 125235),
   (125202, 125236), (125203, 125237), (125204, 125238), (125205, 125239), (125206, 125240),
   (125207, 125241), (125208, 125242), (125209, 125243), (125210, 125244), (125211, 125245),
   (125212, 125246), (125213, 125247), (125214, 125248), (125215, 125249), (125216, 125250),
   (125217, 125251)]

/-- The single-code-point lowercase mappings of Python's `str.lower()`:
every pair `(c, m)` with `chr(c).lower() = chr(m)` and `m ≠ c`, as in
CPython's Unicode database. The two special cases, capital sigma (931,
contextual) and capital dotted I (304, two-character expansion), are
handled separately. -/
def lowerTable : List (Nat × Nat) :=
  lowerTable0 ++ lowerTable1 ++ lowerTable2 ++ lowerTable3 ++ lowerTable4 ++ lowerTable5 ++ lowerTable6 ++ lowerTable7

/-- Code-point ranges that `str.lower()`'s capital-sigma rule skips when
scanning for a preceding or following cased character (the case-ignorable
characters of CPython's database). -/
def caseIgnorableRanges : List (Nat × Nat) :=
  [(39, 39), (46, 46), (58, 58), (94, 94), (96, 96), (168, 168),
   (173, 173), (175, 175), (180, 180), (183, 184), (688, 879), (884, 885),
   (890, 890), (900, 901), (903, 903), (1155, 1161), (1369, 1369), (1375, 1375),
   (1425, 1469), (1471, 1471), (1473, 1474), (1476, 1477), (1479, 1479), (1524, 1524),
   (1536, 1541), (1552, 1562), (1564, 1564), (1600, 1600), (1611, 1631), (1648, 1648),
   (1750, 1757), (1759, 1768), (1770, 1773), (1807, 1807), (1809, 1809), (1840, 1866),
   (1958, 1968), (2027, 2037), (2042, 2042), (2045, 2045), (2070, 2093), (2137, 2139),
   (2184, 2184), (2192, 2193), (2200, 2207), (2249, 2306), (2362, 2362), (2364, 2364),
   (2369, 2376), (2381, 2381), (2385, 2391), (2402, 2403), (2417, 2417), (2433, 2433),
   (2492, 2492), (2497, 2500), (2509, 2509), (2530, 2531), (2558, 2558), (2561, 2562),
   (2620, 2620), (2625, 2626), (2631, 2632), (2635, 2637), (2641, 2641), (2672, 2673),
   (2677, 2677), (2689, 2690), (2748, 2748), (2753, 2757), (2759, 2760), (2765, 2765),
   (2786, 2787), (2810, 2815), (2817, 2817), (2876, 2876), (2879, 2879), (2881, 2884),
   (2893, 2893), (2901, 2902), (2914, 2915), (2946, 2946), (3008, 3008), (3021, 3021),
   (3072, 3072), (3076, 3076), (3132, 3132), (3134, 3136), (3142, 3144), (3146, 3149),
   (3157, 3158), (3170, 3171), (3201, 3201), (3260, 3260), (3263, 3263), (3270, 3270),
   (3276, 3277), (3298, 3299), (3328, 3329), (3387, 3388), (3393, 3396), (3405, 3405),
   (3426, 3427), (3457, 3457), (3530, 3530), (3538, 3540), (3542, 3542), (3633, 3633),
   (3636, 3642), (3654, 3662), (3761, 3761), (3764, 3772), (3782, 3782), (3784, 3789),
   (3864, 3865), (3893, 3893), (3895, 3895), (3897, 3897), (3953, 3966), (3968, 3972),
   (3974, 3975), (3981, 3991), (3993, 4028), (4038, 4038), (4141, 4144), (4146, 4151),
   (4153, 4154), (4157, 4158), (4184, 4185), (4190, 4192), (4209, 4212), (4226, 4226),
   (4229, 4230), (4237, 4237), (4253, 4253), (4348, 4348), (4957, 4959), (5906, 5908),
   (5938, 5939), (5970, 5971), (6002, 6003), (6068, 6069), (6071, 6077), (6086, 6086),
   (6089, 6099), (6103, 6103), (6109, 6109), (6155, 6159), (6211, 6211), (6277, 6278),
   (6313, 6313), (6432, 6434), (6439, 6440), (6450, 6450), (6457, 6459), (6679, 6680),
   (6683, 6683), (6742, 6742), (6744, 6750), (6752, 6752), (6754, 6754), (6757, 6764),
   (6771, 6780), (6783, 6783), (6823, 6823), (6832, 6862), (6912, 6915), (6964, 6964),
   (6966, 6970), (6972, 6972), (6978, 6978), (7019, 7027), (7040, 7041), (7074, 7077),
   (7080, 7081), (7083, 7085), (7142, 7142), (7144, 7145), (7149, 7149), (7151, 7153),
   (7212, 7219), (7222, 7223), (7288, 7293), (7376, 7378), (7380, 7392), (7394, 7400),
   (7405, 7405), (7412, 7412), (7416, 7417), (7468, 7530), (7544, 7544), (7579, 7679),
   (8125, 8125), (8127, 8129), (8141, 8143), (8157, 8159), (8173, 8175), (8189, 8190),
   (8203, 8207), (8216, 8217), (8228, 8228), (8231, 8231), (8234, 8238), (8288, 8292),
   (8294, 8303), (8305, 8305), (8319, 8319), (8336, 8348), (8400, 8432), (11388, 11389),
   (11503, 11505), (11631, 11631), (11647, 11647), (11744, 11775), (11823, 11823), (12293, 12293),
   (12330, 12333), (12337, 12341), (12347, 12347), (12441, 12446), (12540, 12542), (40981, 40981),
   (42232, 42237), (42508, 42508), (42607, 42610), (42612, 42621), (42623, 42623), (42652, 42655),
   (42736, 42737), (42752, 42785), (42864, 42864), (42888, 42890), (42994, 42996), (43000, 43001),
   (43010, 43010), (43014, 43014), (43019, 43019), (43045, 43046), (43052, 43052), (43204, 43205),
   (43232, 43249), (43263, 43263), (43302, 43309), (43335, 43345), (43392, 43394), (43443, 43443),
   (43446, 43449), (43452, 43453), (43471, 43471), (43493, 43494), (43561, 43566), (43569, 43570),
   (43573, 43574), (43587, 43587), (43596, 43596), (43632, 43632), (43644, 43644), (43696, 43696),
   (43698, 43700), (43703, 43704), (43710, 43711), (43713, 43713), (43741, 43741), (43756, 43757),
   (43763, 43764), (43766, 43766), (43867, 43871), (43881, 43883), (44005, 44005), (44008, 44008),
   (44013, 44013), (64286, 64286), (64434, 64450), (65024, 65039), (65043, 65043), (65056, 65071),
   (65106, 65106), (65109, 65109), (65279, 65279), (65287, 65287), (65294, 65294), (65306, 65306),
   (65342, 65342), (65344, 65344), (65392, 65392), (65438, 65439), (65507, 65507), (65529, 65531),
   (66045, 66045), (66272, 66272), (66422, 66426), (67456, 67461), (67463, 67504), (67506, 67514),
   (68097, 68099), (68101, 68102), (68108, 68111), (68152, 68154), (68159, 68159), (68325, 68326),
   (68900, 68903), (69291, 69292), (69446, 69456), (69506, 69509), (69633, 69633), (69688, 69702),
   (69744, 69744), (69747, 69748), (69759, 69761), (69811, 69814), (69817, 69818), (69821, 69821),
   (69826, 69826), (69837, 69837), (69888, 69890), (69927, 69931), (69933, 69940), (70003, 70003),
   (70016, 70017), (70070, 70078), (70089, 70092), (70095, 70095), (70191, 70193), (70196, 70196),
   (70198, 70199), (70206, 70206), (70367, 70367), (70371, 70378), (70400, 70401), (70459, 70460),
   (70464, 70464), (70502, 70508), (70512, 70516), (70712, 70719), (70722, 70724), (70726, 70726),
   (70750, 70750), (70835, 70840), (70842, 70842), (70847, 70848), (70850, 70851), (71090, 71093),
   (71100, 71101), (71103, 71104), (71132, 71133), (71219, 71226), (71229, 71229), (71231, 71232),
   (71339, 71339), (71341, 71341), (71344, 71349), (71351, 71351), (71453, 71455), (71458, 71461),
   (71463, 71467), (71727, 71735), (71737, 71738), (71995, 71996), (71998, 71998), (72003, 72003),
   (72148, 72151), (72154, 72155), (72160, 72160), (72193, 72202), (72243, 72248), (72251, 72254),
   (72263, 72263), (72273, 72278), (72281, 72283), (72330, 72342), (72344, 72345), (72752, 72758),
   (72760, 72765), (72767, 72767), (72850, 72871), (72874, 72880), (72882, 72883), (72885, 72886),
   (73009, 73014), (73018, 73018), (73020, 73021), (73023, 73029), (73031, 73031), (73104, 73105),
   (73109, 73109), (73111, 73111), (73459, 73460), (78896, 78904), (92912, 92916), (92976, 92982),
   (92992, 92995), (94031, 94031), (94095, 94111), (94176, 94177), (94179, 94180), (110576, 110579),
   (110581, 110587), (110589, 110590), (113821, 113822), (113824, 113827), (118528, 118573), (118576, 118598),
   (119143, 119145), (119155, 119170), (119173, 119179), (119210, 119213), (119362, 119364), (121344, 121398),
   (121403, 121452), (121461, 121461), (121476, 121476), (121499, 121503), (121505, 121519), (122880, 122886),
   (122888, 122904), (122907, 122913), (122915, 122916), (122918, 122922), (123184, 123197), (123566, 123566),
   (123628, 123631), (125136, 125142), (125252, 125259), (127995, 127999), (917505, 917505), (917536, 917631),
   (917760, 917999)]

/-- Code-point ranges of the cased, non-case-ignorable characters: the
characters whose presence before (resp. after) a capital sigma makes
(resp. unmakes) its Final_Sigma context in `str.lower()`. -/
def casedRanges : List (Nat × Nat) :=
  [(65, 90), (97, 122), (170, 170), (181, 181), (186, 186), (192, 214),
   (216, 246), (248, 442), (444, 447), (452, 659), (661, 687), (880, 883),
   (886, 887), (891, 893), (895, 895), (902, 902), (904, 906), (908, 908),
   (910, 929), (931, 1013), (1015, 1153), (1162, 1327), (1329, 1366), (1376, 1416),
   (4256, 4293), (4295, 4295), (4301, 4301), (4304, 4346), (4349, 4351), (5024, 5109),
   (5112, 5117), (7296, 7304), (7312, 7354), (7357, 7359), (7424, 7467), (7531, 7543),
   (7545, 7578), (7680, 7957), (7960, 7965), (7968, 8005), (8008, 8013), (8016, 8023),
   (8025, 8025), (8027, 8027), (8029, 8029), (8031, 8061), (8064, 8116), (8118, 8124),
   (8126, 8126), (8130, 8132), (8134, 8140), (8144, 8147), (8150, 8155), (8160, 8172),
   (8178, 8180), (8182, 8188), (8450, 8450), (8455, 8455), (8458, 8467), (8469, 8469),
   (8473, 8477), (8484, 8484), (8486, 8486), (8488, 8488), (8490, 8493), (8495, 8500),
   (8505, 8505), (8508, 8511), (8517, 8521), (8526, 8526), (8544, 8575), (8579, 8580),
   (9398, 9449), (11264, 11387), (11390, 11492), (11499, 11502), (11506, 11507), (11520, 11557),
   (11559, 11559), (11565, 11565), (42560, 42605), (42624, 42651), (42786, 42863), (42865, 42887),
   (42891, 42894), (42896, 42954), (42960, 42961), (42963, 42963), (42965, 42969), (42997, 42998),
   (43002, 43002), (43824, 43866), (43872, 43880), (43888, 43967), (64256, 64262), (64275, 64279),
   (65313, 65338), (65345, 65370), (66560, 66639), (66736, 66771), (66776, 66811), (66928, 66938),
   (66940, 66954), (66956, 66962), (66964, 66965), (66967, 66977), (66979, 66993), (66995, 67001),
   (67003, 67004), (68736, 68786), (68800, 68850), (71840, 71903), (93760, 93823), (119808, 119892),
   (119894, 119964), (119966, 119967), (119970, 119970), (119973, 119974), (119977, 119980), (119982, 119993),
   (119995, 119995), (119997, 120003), (120005, 120069), (120071, 120074), (120077, 120084), (120086, 120092),
   (120094, 120121), (120123, 120126), (120128, 120132), (120134, 120134), (120138, 120144), (120146, 120485),
   (120488, 120512), (120514, 120538), (120540, 120570), (120572, 120596), (120598, 120628), (120630, 120654),
   (120656, 120686), (120688, 120712), (120714, 120744), (120746, 120770), (120772, 120779), (122624, 122633),
   (122635, 122654), (125184, 125251), (127280, 127305), (127312, 127337), (127344, 127369)]

/-- Python `str.isspace`, the character set the default `str.strip()`
removes. -/
def pyIsSpace (c : Char) : Bool := pyWhitespace.contains c.toNat

/-- Python `str.strip()`: drop leading and trailing whitespace. -/
def pyStrip (s : String) : String :=
  ⟨(((s.data.dropWhile pyIsSpace).reverse.dropWhile pyIsSpace).reverse)⟩

/-- Membership of a code point in a list of inclusive ranges. -/
def inRanges (rs : List (Nat × Nat)) (n : Nat) : Bool :=
  rs.any fun r => r.1 ≤ n && n ≤ r.2

/-- A case-ignorable code point, skipped by the capital-sigma scan. -/
def isCaseIgnorable (n : Nat) : Bool := inRanges caseIgnorableRanges n

/-- A cased, non-case-ignorable code point, deciding the sigma scan. -/
def isCasedStrict (n : Nat) : Bool := inRanges casedRanges n

/-- The lowercase expansion of one character under `str.lower()`, for
every character except capital sigma: capital dotted I (304) expands to
`i` followed by combining dot above, and `lowerTable` covers the rest. -/
def lowerChar (c : Char) : List Char :=
  if c.toNat = 304 then [Char.ofNat 105, Char.ofNat 775]
  else
    match lowerTable.lookup c.toNat with
    | some m => [Char.ofNat m]
    | none => [c]

/-- The Final_Sigma context of `str.lower()`: a cased character before the
sigma and none after it, skipping case-ignorable characters on both sides;
`before` is the reversed prefix of the sigma position. -/
def finalSigma (before after : List Char) : Bool :=
  match before.dropWhile (fun c => isCaseIgnorable c.toNat) with
  | [] => false
  | b :: _ =>
      isCasedStrict b.toNat &&
        (match after.dropWhile (fun c => isCaseIgnorable c.toNat) with
         | [] => true
         | a :: _ => !isCasedStrict a.toNat)

/-- The character loop of `str.lower()`: capital sigma (931) lowercases to
final small sigma (962) in Final_Sigma context and to medial small sigma
(963) otherwise; every other character lowercases by `lowerChar`. -/
def pyLowerGo : List Char → List Char → List Char
  | _, [] => []
  | before, c :: rest =>
      (if c.toNat = 931 then
        [if finalSigma before rest then Char.ofNat 962 else Char.ofNat 963]
      else lowerChar c) ++ pyLowerGo (c :: before) rest

/-- Python `str.lower()`. -/
def pyLower (s : String) : String := ⟨pyLowerGo [] s.data⟩

/-- The normalized form used by `hash_name_to_seed`: `name.strip().lower()`. -/
def pyNormalize (s : String) : String := pyLower (pyStrip s)

/-- UTF-8 encoding of one scalar value as 1–4 bytes. -/
def utf8Char (c : Char) : List Nat :=
  let n := c.toNat
  if n < 0x80 then [n]
  else if n < 0x800 then [0xc0 + n / 64, 0x80 + n % 64]
  else if n < 0x10000 then
    [0xe0 + n / 4096, 0x80 + n / 64 % 64, 0x80 + n % 64]
  else
    [0xf0 + n / 262144, 0x80 + n / 4096 % 64, 0x80 + n / 64 % 64, 0x80 + n % 64]

/-- UTF-8 encoding of a string (`str.encode('utf-8')`). -/
def utf8Bytes (s : String) : List Nat :=
  s.data.flatMap utf8Char

/-! ## `src/utils.py` -/

/-- The error taxonomy of the spec; the source raises `ValueError` /
uncaught exceptions at the corresponding places. -/
inductive QError where
  | invalidInput
  | emptyBatch
  | parameterCountMismatch (expected actual : Nat)
  | executionResultMismatch
deriving Repr, DecidableEq

/-- Four bytes, big-endian, as one unsigned integer
(`int.from_bytes(hash_bytes[:4], byteorder='big')`). -/
def bytesToNatBE (bs : List Nat) : Nat :=
  bs.foldl (fun acc b => acc * 256 + b) 0

/-- `hash_name_to_seed` from `src/utils.py`: reject names that are empty
after stripping, otherwise the first 4 bytes of the SHA-256 digest of the
UTF-8 encoding of the stripped, lowercased name, big-endian. -/
def hash_name_to_seed (name : String) : Except QError Nat :=
  if pyStrip name = "" then Except.error QError.invalidInput
  else Except.ok (bytesToNatBE ((sha256 (utf8Bytes (pyNormalize name))).take 4))

/-- `calculate_probability` from `src/utils.py`: empirical probability with
a guard returning `0.0` when `total_shots <= 0`. Python's exact `int / int`
division is modelled in `ℚ`. -/
def calculate_probability (count total_shots : Int) : ℚ :=
  if total_shots > 0 then (count : ℚ) / (total_shots : ℚ) else 0

/-- `bitstring_to_int` from `src/utils.py`: value of a binary string. -/
def bitstring_to_int (bitstring : String) : Nat :=
  bitstring.data.foldl (fun acc c => acc * 2 + (if c = '1' then 1 else 0)) 0

/-- `hamming_weight` from `src/utils.py`: number of `'1'` characters. -/
def hamming_weight (bitstring : String) : Nat :=
  bitstring.data.countP (fun c => c == '1')

/-! ## `src/quantum_canvas.py` — configuration and circuits

Rotation angles are a type parameter `α` (`ℝ` in the source's `np.ndarray`);
the claims under verification do not depend on the numeric type of angles,
and a polymorphic angle type keeps witnesses computable.
-/

/-- `QuantumConfig`: frozen dataclass with the source's defaults. -/
structure QuantumConfig where
  num_qubits : Nat := 5
  layers : Nat := 3
  shots : Nat := 100
deriving Repr, DecidableEq

/-- `QuantumConfig.num_parameters`: `(layers + 1) * num_qubits * 2`. -/
def QuantumConfig.num_parameters (c : QuantumConfig) : Nat :=
  (c.layers + 1) * c.num_qubits * 2

/-- `QuantumConfig.max_states`: `2 ** num_qubits`. -/
def QuantumConfig.max_states (c : QuantumConfig) : Nat :=
  2 ^ c.num_qubits

/-- `DEFAULT_CONFIG = QuantumConfig()`. -/
def DEFAULT_CONFIG : QuantumConfig := {}

/-- A gate of the unbound ansatz; rotation gates carry the index of the
free parameter bound into them (qiskit `Parameter` slots, numbered in
creation order). -/
inductive PGate where
  | ry (q : Nat) (p : Nat)
  | rz (q : Nat) (p : Nat)
  | cx (ctrl tgt : Nat)
deriving Repr, DecidableEq

/-- Whether a gate is a parameterized rotation. -/
def PGate.isRotation : PGate → Bool
  | .ry _ _ => true
  | .rz _ _ => true
  | .cx _ _ => false

/-- One `EfficientSU2` rotation layer on `n` qubits: `ry` on every qubit,
then `rz` on every qubit, consuming `2 * n` fresh parameter slots starting
at `base`. -/
def rotationLayer (n base : Nat) : List PGate :=
  ((List.range n).map fun q => PGate.ry q (base + q)) ++
    ((List.range n).map fun q => PGate.rz q (base + n + q))

/-- One full-entanglement layer on `n` qubits: a `cx` for every ordered
pair `i < j`. -/
def entanglementLayer (n : Nat) : List PGate :=
  (List.range n).flatMap fun i =>
    (List.range (n - i - 1)).map fun k => PGate.cx i (i + 1 + k)

/-- The gate sequence of `EfficientSU2(num_qubits=n, su2_gates=['ry','rz'],
entanglement='full', reps=d)` starting at parameter slot `base`: `d`
rotation layers each followed by an entanglement layer, then one final
rotation layer. -/
def ansatzGates (n : Nat) : Nat → Nat → List PGate
  | 0, base => rotationLayer n base
  | d + 1, base =>
      rotationLayer n base ++ entanglementLayer n ++
        ansatzGates n d (base + 2 * n)

/-- The ansatz built by `QuantumCanvas._build_ansatz`. -/
def efficientSU2 (n d : Nat) : List PGate := ansatzGates n d 0

/-- The ansatz's declared free-parameter count (qiskit `num_parameters`):
the number of parameterized rotation gates, each holding a fresh slot. -/
def ansatzNumParameters (gs : List PGate) : Nat :=
  (gs.filter PGate.isRotation).length

/-- A gate of a fully bound circuit with angles drawn from `α`. -/
inductive BGate (α : Type) where
  | ry (q : Nat) (θ : α)
  | rz (q : Nat) (θ : α)
  | cx (ctrl tgt : Nat)
  | measureAll
deriving Repr, DecidableEq

/-- A bound circuit: qubit count plus gate list (`measure_all` included). -/
structure Circuit (α : Type) where
  num_qubits : Nat
  gates : List (BGate α)
deriving Repr, DecidableEq

/-- The number of bound rotation angles a circuit carries — the parameter
count of the produced circuit. -/
def Circuit.numBoundParameters {α : Type} (c : Circuit α) : Nat :=
  c.gates.countP fun g =>
    match g with
    | .ry _ _ => true
    | .rz _ _ => true
    | _ => false

/-- `assign_parameters`: bind parameter slot `p` to `params[p]`. Only
reached when `params` covers every slot, so the `getD` default is inert. -/
def bindGate {α : Type} [Inhabited α] (params : List α) : PGate → BGate α
  | .ry q p => .ry q (params.getD p default)
  | .rz q p => .rz q (params.getD p default)
  | .cx a b => .cx a b

/-- `QuantumCanvas._build_circuit`: build the ansatz, validate the
parameter-vector length against the ansatz's parameter count (mismatch
raises `ValueError` carrying expected and actual counts), bind the
parameters and append `measure_all`. -/
def build_circuit {α : Type} [Inhabited α] (cfg : QuantumConfig)
    (parameters : List α) : Except QError (Circuit α) :=
  let ansatz := efficientSU2 cfg.num_qubits cfg.layers
  let expected := ansatzNumParameters ansatz
  if parameters.length ≠ expected then
    Except.error (QError.parameterCountMismatch expected parameters.length)
  else
    Except.ok ⟨cfg.num_qubits, ansatz.map (bindGate parameters) ++ [BGate.measureAll]⟩

/-! ## Execution backends and result aggregation -/

/-- A measurement histogram: Python dict from bitstring to count, as an
association list in insertion order (keys distinct by construction). -/
abbrev Counts : Type := List (String × Nat)

/-- Sum of the values of a counts mapping (`sum(counts.values())`). -/
def sumValues (c : Counts) : Nat := (c.map Prod.snd).sum

/-- `ArtResult`: name, seed, counts, config, backend identifier. -/
structure ArtResult where
  name : String
  seed : Nat
  counts : Counts
  config : QuantumConfig
  backend_name : String
deriving Repr, DecidableEq

/-- `ArtResult.total_shots`: computed as `sum(self.counts.values())`. -/
def ArtResult.total_shots (r : ArtResult) : Nat := sumValues r.counts

/-- `ArtResult.num_states`: computed as `len(self.counts)`. -/
def ArtResult.num_states (r : ArtResult) : Nat := r.counts.length

/-- The nested `config` object of the full-metadata serialization. -/
structure ConfigDict where
  num_qubits : Nat
  layers : Nat
  shots : Nat
deriving Repr, DecidableEq

/-- The full-metadata serialization shape produced by `ArtResult.to_dict`. -/
structure FullDict where
  name : String
  seed : Nat
  counts : Counts
  total_shots : Nat
  num_states : Nat
  backend : String
  config : ConfigDict
deriving Repr, DecidableEq

/-- `ArtResult.to_dict`: the full-metadata object, with `total_shots` and
`num_states` computed from `counts`. -/
def ArtResult.to_dict (r : ArtResult) : FullDict :=
  { name := r.name
    seed := r.seed
    counts := r.counts
    total_shots := r.total_shots
    num_states := r.num_states
    backend := r.backend_name
    config := { num_qubits := r.config.num_qubits
                layers := r.config.layers
                shots := r.config.shots } }

/-- `ArtResult.to_frontend_json`: the bare counts mapping. -/
def ArtResult.to_frontend_json (r : ArtResult) : Counts := r.counts

/-- `QuantumCanvas._execute_local`: one `backend.run(circuit, shots)` per
circuit, collecting `get_counts` in order. The AerSimulator collaborator is
the function `run` from (transpiled) circuit to its sampled histogram;
the loop never drops or reorders a circuit. -/
def execute_local {α : Type} (run : Circuit α → Counts)
    (circuits : List (Circuit α)) : Except QError (List Counts) :=
  Except.ok (circuits.map run)

/-- The index loop of `_execute_cloud`, reading the job's per-circuit
records at positions `0, 1, …, k-1` in order: structurally, consume one
record per remaining circuit. A missing record (IndexError past the end)
or an absent counts field aborts with no partial list. -/
def cloudCollect : List (Option Counts) → Nat → Except QError (List Counts)
  | _, 0 => Except.ok []
  | [], _ + 1 => Except.error QError.executionResultMismatch
  | none :: _, _ + 1 => Except.error QError.executionResultMismatch
  | some c :: rest, k + 1 => do
      let l ← cloudCollect rest k
      Except.ok (c :: l)

/-- `QuantumCanvas._execute_cloud`: the sampler job's result is a sequence
of per-circuit records, each carrying its counts data or not (`none` models
an absent `data.meas` field). The loop reads `result[i]` for every
`i < len(circuits)` and collects the counts in order. -/
def execute_cloud {α : Type} (svc : List (Option Counts))
    (circuits : List (Circuit α)) : Except QError (List Counts) :=
  cloudCollect svc circuits.length

/-- `result[0]` on the list returned by a batch execution
(used by `_execute_circuit` for single-circuit runs). -/
def firstCounts : List Counts → Except QError Counts
  | [] => Except.error QError.executionResultMismatch
  | c :: _ => Except.ok c

/-- `QuantumCanvas.generate_art`: seed from the name, parameters from the
seed (`sample` is the seeded generator drawing `k` angles), circuit from
the parameters, counts from a single-circuit execution, aggregated into an
`ArtResult`. `execBatch` is the session's execution backend. -/
def generate_art {α : Type} [Inhabited α]
    (execBatch : List (Circuit α) → Except QError (List Counts))
    (sample : Nat → Nat → List α) (backendName : String)
    (cfg : QuantumConfig) (user_name : String) : Except QError ArtResult := do
  let seed ← hash_name_to_seed user_name
  let parameters := sample seed cfg.num_parameters
  let circuit ← build_circuit cfg parameters
  let allCounts ← execBatch [circuit]
  let counts ← firstCounts allCounts
  Except.ok ⟨user_name, seed, counts, cfg, backendName⟩

/-- The per-name preparation loop of `generate_art_batch`: one
`(name, seed, circuit)` triple per name, failing fast on the first name
whose seed derivation or circuit construction fails. -/
def prepareBatch {α : Type} [Inhabited α] (sample : Nat → Nat → List α)
    (cfg : QuantumConfig) : List String → Except QError (List (String × Nat × Circuit α))
  | [] => Except.ok []
  | name :: rest => do
      let seed ← hash_name_to_seed name
      let params := sample seed cfg.num_parameters
      let circuit ← build_circuit cfg params
      let tail ← prepareBatch sample cfg rest
      Except.ok ((name, seed, circuit) :: tail)

/-- The result-assembly loop of `generate_art_batch`:
`for i, counts in enumerate(all_counts): ... metadata[i] ...`. Iteration is
driven by the counts list; an index beyond the metadata raises
(IndexError), while a counts list shorter than the metadata ends the loop
early. -/
def pairResults (cfg : QuantumConfig) (backendName : String) :
    List (String × Nat) → List Counts → Except QError (List ArtResult)
  | _, [] => Except.ok []
  | [], _ :: _ => Except.error QError.executionResultMismatch
  | (name, seed) :: ms, c :: cs => do
      let rest ← pairResults cfg backendName ms cs
      Except.ok (⟨name, seed, c, cfg, backendName⟩ :: rest)

/-- `QuantumCanvas.generate_art_batch`: reject an empty name list, build
every circuit, execute the whole batch once, and pair the returned counts
with the per-name metadata in order. -/
def generate_art_batch {α : Type} [Inhabited α]
    (execBatch : List (Circuit α) → Except QError (List Counts))
    (sample : Nat → Nat → List α) (backendName : String)
    (cfg : QuantumConfig) (names : List String) : Except QError (List ArtResult) :=
  if names = [] then Except.error QError.emptyBatch
  else do
    let meta ← prepareBatch sample cfg names
    let allCounts ← execBatch (meta.map fun m => m.2.2)
    pairResults cfg backendName (meta.map fun m => (m.1, m.2.1)) allCounts

/-- The value `hash_name_to_seed` returns on a valid name: the first 4
digest bytes of the normalized name, big-endian. -/
def seedOf (name : String) : Nat :=
  bytesToNatBE ((sha256 (utf8Bytes (pyNormalize name))).take 4)

instance {ε α : Type} [DecidableEq ε] [DecidableEq α] : DecidableEq (Except ε α) :=
  fun a b =>
    match a, b with
    | Except.ok x, Except.ok y =>
        if h : x = y then Decidable.isTrue (congrArg Except.ok h)
        else Decidable.isFalse fun hc => h (Except.ok.inj hc)
    | Except.error x, Except.error y =>
        if h : x = y then Decidable.isTrue (congrArg Except.error h)
        else Decidable.isFalse fun hc => h (Except.error.inj hc)
    | Except.ok _, Except.error _ => Decidable.isFalse fun hc => Except.noConfusion hc
    | Except.error _, Except.ok _ => Decidable.isFalse fun hc => Except.noConfusion hc

/-! ## Digest-range lemmas -/

theorem wordBytes_lt {b x : Nat} (hb : b ∈ wordBytes x) : b < 256 := by
  simp [wordBytes] at hb
  rcases hb with rfl | rfl | rfl | rfl <;> exact Nat.mod_lt _ (by norm_num)

theorem bytesToNatBE_wordBytes_lt (x : Nat) : bytesToNatBE (wordBytes x) < 2 ^ 32 := by
  simp [bytesToNatBE, wordBytes]
  omega

theorem sha256_take_four (m : List Nat) : ∃ x, (sha256 m).take 4 = wordBytes x := by
  refine ⟨((chunks64 (sha256Pad m)).foldl shaBlock sha256Init).a, ?_⟩
  simp [sha256, wordBytes]

theorem seedOf_lt (name : String) : seedOf name < 2 ^ 32 := by
  obtain ⟨x, hx⟩ := sha256_take_four (utf8Bytes (pyNormalize name))
  rw [seedOf, hx]
  exact bytesToNatBE_wordBytes_lt x

theorem hash_name_to_seed_ok {name : String} (h : pyStrip name ≠ "") :
    hash_name_to_seed name = Except.ok (seedOf name) := by
  simp [hash_name_to_seed, h, seedOf]

theorem lowerChar_ne_nil (c : Char) : lowerChar c ≠ [] := by
  rw [lowerChar]
  split
  · simp
  · split <;> simp

theorem pyLowerGo_cons_ne_nil (before : List Char) (c : Char) (cs : List Char) :
    pyLowerGo before (c :: cs) ≠ [] := by
  rw [pyLowerGo]
  intro h
  rcases List.append_eq_nil.mp h with ⟨h1, _⟩
  by_cases hc : c.toNat = 931
  · rw [if_pos hc] at h1
    simp at h1
  · rw [if_neg hc] at h1
    exact lowerChar_ne_nil c h1

theorem pyLower_empty {s : String} (h : pyLower s = "") : s = "" := by
  cases s with
  | mk l =>
    cases l with
    | nil => rfl
    | cons c cs =>
      have hd := congrArg String.data h
      exact absurd hd (pyLowerGo_cons_ne_nil [] c cs)

theorem pyNormalize_ne_empty {s : String} (h : pyStrip s ≠ "") :
    pyNormalize s ≠ "" := by
  intro hc
  exact h (pyLower_empty hc)

/-! ## Ansatz parameter-count lemmas -/

theorem ansatzNumParameters_rotationLayer (n base : Nat) :
    ansatzNumParameters (rotationLayer n base) = 2 * n := by
  have hall : ∀ g ∈ rotationLayer n base, PGate.isRotation g = true := by
    intro g hg
    simp [rotationLayer] at hg
    rcases hg with ⟨q, _, rfl⟩ | ⟨q, _, rfl⟩ <;> rfl
  rw [ansatzNumParameters, List.filter_eq_self.mpr hall]
  simp [rotationLayer]
  omega

theorem ansatzNumParameters_entanglementLayer (n : Nat) :
    ansatzNumParameters (entanglementLayer n) = 0 := by
  rw [ansatzNumParameters, List.length_eq_zero, List.filter_eq_nil_iff]
  intro g hg
  simp [entanglementLayer] at hg
  obtain ⟨i, _, k, _, rfl⟩ := hg
  simp [PGate.isRotation]

theorem ansatzNumParameters_append (l₁ l₂ : List PGate) :
    ansatzNumParameters (l₁ ++ l₂) = ansatzNumParameters l₁ + ansatzNumParameters l₂ := by
  simp [ansatzNumParameters, List.filter_append]

theorem ansatzNumParameters_ansatzGates (n d base : Nat) :
    ansatzNumParameters (ansatzGates n d base) = (d + 1) * (2 * n) := by
  induction d generalizing base with
  | zero => simp [ansatzGates, ansatzNumParameters_rotationLayer]
  | succ d ih =>
      simp [ansatzGates, ansatzNumParameters_append, ansatzNumParameters_rotationLayer,
        ansatzNumParameters_entanglementLayer, ih]
      ring

theorem efficientSU2_num_parameters (cfg : QuantumConfig) :
    ansatzNumParameters (efficientSU2 cfg.num_qubits cfg.layers) = cfg.num_parameters := by
  rw [efficientSU2, ansatzNumParameters_ansatzGates, QuantumConfig.num_parameters]
  ring

theorem ansatzNumParameters_eq_countP (gs : List PGate) :
    ansatzNumParameters gs = gs.countP PGate.isRotation :=
  (List.countP_eq_length_filter _ _).symm

theorem countP_map_bindGate {α : Type} [Inhabited α] (params : List α)
    (gs : List PGate) :
    (gs.map (bindGate params)).countP
        (fun g => match g with
          | BGate.ry _ _ => true
          | BGate.rz _ _ => true
          | _ => false) = ansatzNumParameters gs := by
  rw [ansatzNumParameters_eq_countP]
  induction gs with
  | nil => rfl
  | cons g rest ih =>
      cases g <;> simp [bindGate, List.countP_cons, PGate.isRotation, ih]

/-! ## Execution and batch lemmas -/

theorem except_bind_ok {ε α β : Type} (x : α) (f : α → Except ε β) :
    (Except.ok x >>= f) = f x := rfl

theorem except_bind_error {ε α β : Type} (e : ε) (f : α → Except ε β) :
    ((Except.error e : Except ε α) >>= f) = Except.error e := rfl

theorem build_circuit_ok_eq {α : Type} [Inhabited α] (cfg : QuantumConfig)
    (params : List α) (h : params.length = cfg.num_parameters) :
    build_circuit cfg params = Except.ok ⟨cfg.num_qubits,
      (efficientSU2 cfg.num_qubits cfg.layers).map (bindGate params) ++
        [BGate.measureAll]⟩ := by
  simp [build_circuit, efficientSU2_num_parameters cfg, h]

theorem cloudCollect_length {svc : List (Option Counts)} {k : Nat}
    {l : List Counts} (h : cloudCollect svc k = Except.ok l) : l.length = k := by
  induction k generalizing svc l with
  | zero =>
      simp [cloudCollect] at h
      simp [← h]
  | succ k ih =>
      cases svc with
      | nil => simp [cloudCollect] at h
      | cons o rest =>
          cases o with
          | none => simp [cloudCollect] at h
          | some c =>
              cases hrec : cloudCollect rest k with
              | error e => simp [cloudCollect, hrec, except_bind_error] at h
              | ok l' =>
                  simp [cloudCollect, hrec, except_bind_ok] at h
                  simp [← h, ih hrec]

theorem cloudCollect_error_of_bad {svc : List (Option Counts)} {k i : Nat}
    (hik : i < k) (hbad : svc.get? i = none ∨ svc.get? i = some none) :
    cloudCollect svc k = Except.error QError.executionResultMismatch := by
  induction k generalizing svc i with
  | zero => omega
  | succ k ih =>
      cases svc with
      | nil => rfl
      | cons o rest =>
          cases o with
          | none => rfl
          | some c =>
              cases i with
              | zero => simp at hbad
              | succ i =>
                  have hr := ih (i := i) (by omega) (by simpa using hbad)
                  simp [cloudCollect, hr, except_bind_error]

theorem cloudCollect_ok_of_good {svc : List (Option Counts)} {k : Nat}
    (h : ∀ i, i < k → ∃ c, svc.get? i = some (some c)) :
    ∃ l, cloudCollect svc k = Except.ok l ∧ l.length = k ∧
      ∀ i, i < k → (l.get? i).map some = svc.get? i := by
  induction k generalizing svc with
  | zero =>
      refine ⟨[], ?_, rfl, fun i hi => by omega⟩
      cases svc with
      | nil => rfl
      | cons o rest => cases o <;> rfl
  | succ k ih =>
      obtain ⟨c, hc⟩ := h 0 (by omega)
      cases svc with
      | nil => simp at hc
      | cons o rest =>
          simp at hc
          subst hc
          obtain ⟨l, hl, hlen, hget⟩ := @ih rest
            (fun i hi => by simpa using h (i + 1) (by omega))
          refine ⟨c :: l, by simp [cloudCollect, hl, except_bind_ok], by simp [hlen], ?_⟩
          intro i hi
          cases i with
          | zero => rfl
          | succ i => simpa using hget i (by omega)

theorem prepareBatch_ok {α : Type} [Inhabited α] (sample : Nat → Nat → List α)
    (cfg : QuantumConfig) (names : List String)
    (hsample : ∀ s k, (sample s k).length = k) :
    (∀ n ∈ names, pyStrip n ≠ "") →
    ∃ meta, prepareBatch sample cfg names = Except.ok meta ∧
      meta.map (fun m => (m.1, m.2.1)) = names.map (fun n => (n, seedOf n)) := by
  induction names with
  | nil => exact fun _ => ⟨[], rfl, rfl⟩
  | cons name rest ih =>
      intro hv
      obtain ⟨meta, hm, hmap⟩ := ih fun n hn => hv n (List.mem_cons_of_mem _ hn)
      refine ⟨(name, seedOf name,
        ⟨cfg.num_qubits, (efficientSU2 cfg.num_qubits cfg.layers).map
          (bindGate (sample (seedOf name) cfg.num_parameters)) ++
          [BGate.measureAll]⟩) :: meta, ?_, ?_⟩
      · simp [prepareBatch, hash_name_to_seed_ok (hv name (by simp)),
          build_circuit_ok_eq cfg _ (hsample _ _), hm, except_bind_ok]
      · simp [hmap]

theorem pairResults_ok (cfg : QuantumConfig) (bk : String)
    (ms : List (String × Nat)) (cs : List Counts) (h : cs.length ≤ ms.length) :
    pairResults cfg bk ms cs =
      Except.ok ((ms.zip cs).map fun p =>
        (⟨p.1.1, p.1.2, p.2, cfg, bk⟩ : ArtResult)) := by
  induction cs generalizing ms with
  | nil => cases ms <;> simp [pairResults]
  | cons c cs ih =>
      cases ms with
      | nil => simp at h
      | cons m ms' =>
          obtain ⟨name, seed⟩ := m
          simp [pairResults, ih ms' (by simpa using h), except_bind_ok]

theorem zip_map_fields (cfg : QuantumConfig) (bk : String)
    (ms : List (String × Nat)) (cs : List Counts) (h : ms.length = cs.length) :
    (((ms.zip cs).map fun p => (⟨p.1.1, p.1.2, p.2, cfg, bk⟩ : ArtResult)).map
        fun r => r.name) = ms.map Prod.fst ∧
    (((ms.zip cs).map fun p => (⟨p.1.1, p.1.2, p.2, cfg, bk⟩ : ArtResult)).map
        fun r => r.seed) = ms.map Prod.snd := by
  induction ms generalizing cs with
  | nil => simp
  | cons m ms ih =>
      cases cs with
      | nil => simp at h
      | cons c cs =>
          obtain ⟨hn, hs⟩ := ih cs (by simpa using h)
          simp [hn, hs]

/-! ## Claim theorems -/

/-- C4: circuit construction rejects a parameter vector whose length is
not `(layers + 1) * num_qubits * 2`, with an error carrying the expected
and actual counts; a vector of exactly that length succeeds, and the
produced circuit carries `config.num_parameters` bound rotation angles. -/
theorem build_circuit_validates_parameter_count {α : Type} [Inhabited α]
    (cfg : QuantumConfig) (params : List α) :
    (params.length ≠ cfg.num_parameters →
      build_circuit cfg params =
        Except.error (QError.parameterCountMismatch cfg.num_parameters params.length)) ∧
    (params.length = cfg.num_parameters →
      ∃ c, build_circuit cfg params = Except.ok c ∧
        c.numBoundParameters = cfg.num_parameters) := by
  have hnp := efficientSU2_num_parameters cfg
  constructor
  · intro h
    simp [build_circuit, hnp, h]
  · intro h
    refine ⟨⟨cfg.num_qubits,
      (efficientSU2 cfg.num_qubits cfg.layers).map (bindGate params) ++
        [BGate.measureAll]⟩, ?_, ?_⟩
    · simp [build_circuit, hnp, h]
    · simp only [Circuit.numBoundParameters, List.countP_append]
      rw [countP_map_bindGate params, hnp]
      simp [List.countP_cons]

/-- Witness for C4 at the default config (40 expected parameters), with a
39-element and a 40-element vector. -/
theorem build_circuit_validates_parameter_count_witness :
    (build_circuit (α := Nat) DEFAULT_CONFIG (List.replicate 39 0) =
      Except.error (QError.parameterCountMismatch 40 39)) ∧
    ∃ c, build_circuit (α := Nat) DEFAULT_CONFIG (List.replicate 40 0) =
        Except.ok c ∧ c.numBoundParameters = 40 := by
  constructor
  · exact (build_circuit_validates_parameter_count (α := Nat) DEFAULT_CONFIG
      (List.replicate 39 0)).1 (by decide)
  · exact (build_circuit_validates_parameter_count (α := Nat) DEFAULT_CONFIG
      (List.replicate 40 0)).2 (by decide)

/-- C1: `derive_seed` is deterministic (it is a pure function of its
argument) and normalization-invariant: two valid names with the same
stripped, lowercased form get the same seed, and that seed is the first 4
bytes of the SHA-256 digest of the UTF-8 encoding of the normalized name,
read big-endian. -/
theorem hash_name_to_seed_normalization_invariant (n₁ n₂ : String)
    (h₁ : pyStrip n₁ ≠ "") (hn : pyNormalize n₁ = pyNormalize n₂) :
    hash_name_to_seed n₁ = hash_name_to_seed n₂ ∧
    hash_name_to_seed n₁ =
      Except.ok (bytesToNatBE ((sha256 (utf8Bytes (pyNormalize n₁))).take 4)) := by
  have h₂ : pyStrip n₂ ≠ "" := by
    intro hc
    apply pyNormalize_ne_empty h₁
    rw [hn, pyNormalize, hc]
    rfl
  refine ⟨?_, hash_name_to_seed_ok h₁⟩
  rw [hash_name_to_seed_ok h₁, hash_name_to_seed_ok h₂, seedOf, seedOf, hn]

set_option maxRecDepth 100000 in
/-- Witness for C1 at `" Alice "` vs `"ALICE"`. -/
theorem hash_name_to_seed_normalization_invariant_witness :
    hash_name_to_seed " Alice " = hash_name_to_seed "ALICE" ∧
    hash_name_to_seed " Alice " =
      Except.ok (bytesToNatBE ((sha256 (utf8Bytes (pyNormalize " Alice "))).take 4)) :=
  hash_name_to_seed_normalization_invariant " Alice " "ALICE" (by decide) (by decide)

/-- C2: `derive_seed` fails with `InvalidInput` exactly on names that strip
to the empty string, and on every other name returns a value below `2^32`. -/
theorem hash_name_to_seed_error_iff_empty (name : String) :
    (pyStrip name = "" → hash_name_to_seed name = Except.error QError.invalidInput) ∧
    (pyStrip name ≠ "" → ∃ v, hash_name_to_seed name = Except.ok v ∧ v < 2 ^ 32) := by
  constructor
  · intro h
    simp [hash_name_to_seed, h]
  · intro h
    exact ⟨seedOf name, hash_name_to_seed_ok h, seedOf_lt name⟩

/-- Witness for C2 at a whitespace-only name and at `"a"`. -/
theorem hash_name_to_seed_error_iff_empty_witness :
    hash_name_to_seed " " = Except.error QError.invalidInput ∧
    ∃ v, hash_name_to_seed "a" = Except.ok v ∧ v < 2 ^ 32 :=
  ⟨(hash_name_to_seed_error_iff_empty " ").1 (by decide),
   (hash_name_to_seed_error_iff_empty "a").2 (by decide)⟩

/-- C8: a batch generation over an empty name list fails with the
empty-batch error, for every backend, sampler and configuration. -/
theorem generate_art_batch_empty_fails {α : Type} [Inhabited α]
    (execBatch : List (Circuit α) → Except QError (List Counts))
    (sample : Nat → Nat → List α) (backendName : String) (cfg : QuantumConfig) :
    generate_art_batch execBatch sample backendName cfg [] =
      Except.error QError.emptyBatch := by
  simp [generate_art_batch]

/-- C9: full-metadata serialization produces exactly the
`{name, seed, counts, total_shots, num_states, backend, config}` object,
with `total_shots` the sum of the counts values and `num_states` the number
of distinct keys, both computed from `counts`; frontend serialization is
the bare counts mapping. -/
theorem to_dict_full_metadata_shape (r : ArtResult)
    (h : (r.counts.map Prod.fst).Nodup) :
    r.to_dict = { name := r.name
                  seed := r.seed
                  counts := r.counts
                  total_shots := sumValues r.counts
                  num_states := ((r.counts.map Prod.fst).dedup).length
                  backend := r.backend_name
                  config := { num_qubits := r.config.num_qubits
                              layers := r.config.layers
                              shots := r.config.shots } } ∧
    r.to_frontend_json = r.counts := by
  refine ⟨?_, rfl⟩
  simp [ArtResult.to_dict, ArtResult.total_shots, ArtResult.num_states,
    List.dedup_eq_self.mpr h]

/-- Witness for C9 at a concrete two-state result. -/
theorem to_dict_full_metadata_shape_witness :
    (ArtResult.to_dict ⟨"x", 7, [("00", 2), ("11", 3)], {}, "aer"⟩ =
      { name := "x"
        seed := 7
        counts := [("00", 2), ("11", 3)]
        total_shots := 5
        num_states := 2
        backend := "aer"
        config := { num_qubits := 5, layers := 3, shots := 100 } }) ∧
    ArtResult.to_frontend_json ⟨"x", 7, [("00", 2), ("11", 3)], {}, "aer"⟩ =
      [("00", 2), ("11", 3)] :=
  to_dict_full_metadata_shape ⟨"x", 7, [("00", 2), ("11", 3)], {}, "aer"⟩ (by decide)

/-- C10: `calculate_probability` is total: a positive `total_shots` divides
exactly (the result times `total_shots` recovers `count`), and a
non-positive `total_shots` yields `0` instead of a division error. -/
theorem calculate_probability_total_function (c t : Int) :
    (0 < t → calculate_probability c t = (c : ℚ) / (t : ℚ) ∧
      calculate_probability c t * (t : ℚ) = (c : ℚ)) ∧
    (t ≤ 0 → calculate_probability c t = 0) := by
  constructor
  · intro h
    have ht : (t : ℚ) ≠ 0 := by
      exact_mod_cast h.ne'
    refine ⟨by simp [calculate_probability, h], ?_⟩
    simp [calculate_probability, h]
    exact div_mul_cancel₀ _ ht
  · intro h
    simp [calculate_probability, not_lt.mpr h]

/-- C5: a non-empty batch of valid names yields, on the local backend, a
successful result list in one-to-one order-preserving correspondence with
the names (i-th name and its derived seed in the i-th result), and on the
cloud backend the same correspondence whenever execution returns at all. -/
theorem generate_art_batch_order_preserving {α : Type} [Inhabited α]
    (run : Circuit α → Counts) (svc : List (Option Counts))
    (sample : Nat → Nat → List α) (backendName : String) (cfg : QuantumConfig)
    (names : List String) (hne : names ≠ [])
    (hv : ∀ n ∈ names, pyStrip n ≠ "")
    (hsample : ∀ s k, (sample s k).length = k) :
    (∃ rs, generate_art_batch (execute_local run) sample backendName cfg names =
        Except.ok rs ∧ rs.map (fun r => r.name) = names ∧
        rs.map (fun r => r.seed) = names.map seedOf) ∧
    (∀ rs, generate_art_batch (execute_cloud svc) sample backendName cfg names =
        Except.ok rs → rs.map (fun r => r.name) = names ∧
        rs.map (fun r => r.seed) = names.map seedOf) := by
  obtain ⟨meta, hm, hmap⟩ := prepareBatch_ok sample cfg names hsample hv
  have hfields : ∀ cs : List Counts, cs.length = meta.length →
      ((((meta.map fun m => (m.1, m.2.1)).zip cs).map fun p =>
          (⟨p.1.1, p.1.2, p.2, cfg, backendName⟩ : ArtResult)).map
            fun r => r.name) = names ∧
      ((((meta.map fun m => (m.1, m.2.1)).zip cs).map fun p =>
          (⟨p.1.1, p.1.2, p.2, cfg, backendName⟩ : ArtResult)).map
            fun r => r.seed) = names.map seedOf := by
    intro cs hcs
    obtain ⟨hn, hs⟩ := zip_map_fields cfg backendName
      (meta.map fun m => (m.1, m.2.1)) cs (by simp [hcs])
    refine ⟨?_, ?_⟩
    · rw [hn]
      have hf := congrArg (List.map Prod.fst) hmap
      simpa [Function.comp_def] using hf
    · rw [hs]
      have hf := congrArg (List.map Prod.snd) hmap
      simpa [Function.comp_def] using hf
  constructor
  · obtain ⟨h1, h2⟩ := hfields ((meta.map fun m => m.2.2).map run) (by simp)
    refine ⟨_, ?_, h1, h2⟩
    simp only [generate_art_batch, if_neg hne]
    rw [hm, except_bind_ok]
    simp only [execute_local, except_bind_ok]
    exact pairResults_ok cfg backendName (meta.map fun m => (m.1, m.2.1))
      ((meta.map fun m => m.2.2).map run) (by simp)
  · intro rs hrs
    simp only [generate_art_batch, if_neg hne] at hrs
    rw [hm, except_bind_ok] at hrs
    cases hcl : execute_cloud svc (meta.map fun m => m.2.2) with
    | error e =>
        rw [hcl, except_bind_error] at hrs
        exact absurd hrs (by simp)
    | ok l =>
        rw [hcl, except_bind_ok] at hrs
        have hlen : l.length = meta.length := by
          have hcc := cloudCollect_length
            (show cloudCollect svc (meta.map fun m => m.2.2).length = Except.ok l from hcl)
          simpa using hcc
        rw [pairResults_ok cfg backendName _ l (by simp [hlen])] at hrs
        obtain ⟨h1, h2⟩ := hfields l hlen
        cases hrs
        exact ⟨h1, h2⟩

/-- Witness for C5 at the two-name batch `["Alice", "Bob"]`. -/
theorem generate_art_batch_order_preserving_witness :
    (∃ rs, generate_art_batch (α := Nat) (execute_local fun _ => [("00000", 100)])
        (fun _ k => List.replicate k 0) "aer_simulator" DEFAULT_CONFIG
        ["Alice", "Bob"] = Except.ok rs ∧
        rs.map (fun r => r.name) = ["Alice", "Bob"] ∧
        rs.map (fun r => r.seed) = ["Alice", "Bob"].map seedOf) ∧
    (∀ rs, generate_art_batch (α := Nat) (execute_cloud [])
        (fun _ k => List.replicate k 0) "aer_simulator" DEFAULT_CONFIG
        ["Alice", "Bob"] = Except.ok rs →
        rs.map (fun r => r.name) = ["Alice", "Bob"] ∧
        rs.map (fun r => r.seed) = ["Alice", "Bob"].map seedOf) :=
  generate_art_batch_order_preserving _ [] _ _ _ _
    (by decide) (by decide) (fun s k => by simp)

/-- C6 (amended): cloud execution fails with `ExecutionResultMismatch`,
returning no partial list, when the service returns fewer per-circuit
records than circuits submitted, or when any record among the first
`len(circuits)` lacks its counts field; records beyond the submitted
circuit count are silently ignored rather than rejected. -/
theorem execute_cloud_mismatch_behavior {α : Type} (svc : List (Option Counts))
    (circuits : List (Circuit α)) :
    ((∃ i, i < circuits.length ∧ (svc.get? i = none ∨ svc.get? i = some none)) →
      execute_cloud svc circuits = Except.error QError.executionResultMismatch) ∧
    ((∀ i, i < circuits.length → ∃ c, svc.get? i = some (some c)) →
      ∃ l, execute_cloud svc circuits = Except.ok l ∧
        l.length = circuits.length ∧
        ∀ i, i < circuits.length → (l.get? i).map some = svc.get? i) := by
  constructor
  · rintro ⟨i, hik, hbad⟩
    exact cloudCollect_error_of_bad hik hbad
  · intro h
    exact cloudCollect_ok_of_good h

/-- C6 counterexample: with two returned records (the second one even
lacking its counts field) for a single submitted circuit, cloud execution
succeeds with the first record instead of failing, so a record count
different from the submitted circuit count does not imply failure. -/
theorem execute_cloud_excess_records_accepted :
    ([some [("0", 1)], none] : List (Option Counts)).length ≠
        ([⟨1, []⟩] : List (Circuit Nat)).length ∧
    execute_cloud ([some [("0", 1)], none] : List (Option Counts))
        ([⟨1, []⟩] : List (Circuit Nat)) = Except.ok [[("0", 1)]] :=
  ⟨by decide, rfl⟩

/-- Witness for the amended C6 at a one-record-short service result and at
a complete one. -/
theorem execute_cloud_mismatch_behavior_witness :
    execute_cloud ([some [("0", 1)]] : List (Option Counts))
        ([⟨1, []⟩, ⟨1, []⟩] : List (Circuit Nat)) =
      Except.error QError.executionResultMismatch ∧
    ∃ l, execute_cloud ([some [("0", 1)], some [("1", 2)]] : List (Option Counts))
        ([⟨1, []⟩, ⟨1, []⟩] : List (Circuit Nat)) = Except.ok l ∧
      l.length = ([⟨1, []⟩, ⟨1, []⟩] : List (Circuit Nat)).length ∧
      ∀ i, i < ([⟨1, []⟩, ⟨1, []⟩] : List (Circuit Nat)).length →
        (l.get? i).map some =
          ([some [("0", 1)], some [("1", 2)]] : List (Option Counts)).get? i := by
  constructor
  · exact (execute_cloud_mismatch_behavior _ _).1 ⟨1, by decide, by decide⟩
  · refine (execute_cloud_mismatch_behavior _ _).2 ?_
    intro i hi
    have h2 : i < 2 := by simpa using hi
    interval_cases i
    · exact ⟨[("0", 1)], rfl⟩
    · exact ⟨[("1", 2)], rfl⟩

/-- C7 (amended): the result of a local `generate_art` carries exactly the
histogram the backend produced for the built circuit, with `total_shots`
its sum; no comparison against the configured shot count is made, so a
shot shortfall is accepted rather than reported. -/
theorem generate_art_returns_backend_counts {α : Type} [Inhabited α]
    (run : Circuit α → Counts) (sample : Nat → Nat → List α)
    (backendName : String) (cfg : QuantumConfig) (name : String)
    (hname : pyStrip name ≠ "")
    (hsample : ∀ s k, (sample s k).length = k) :
    ∃ r c, generate_art (execute_local run) sample backendName cfg name =
        Except.ok r ∧ r.counts = run c ∧ r.total_shots = sumValues (run c) := by
  refine ⟨⟨name, seedOf name, run ⟨cfg.num_qubits,
      (efficientSU2 cfg.num_qubits cfg.layers).map
        (bindGate (sample (seedOf name) cfg.num_parameters)) ++
        [BGate.measureAll]⟩, cfg, backendName⟩,
    ⟨cfg.num_qubits, (efficientSU2 cfg.num_qubits cfg.layers).map
      (bindGate (sample (seedOf name) cfg.num_parameters)) ++
      [BGate.measureAll]⟩, ?_, rfl, rfl⟩
  simp [generate_art, hash_name_to_seed_ok hname, except_bind_ok,
    build_circuit_ok_eq cfg _ (hsample _ _), execute_local, firstCounts]

/-- Witness for the amended C7 with a 50-shot histogram under the default
100-shot configuration. -/
theorem generate_art_returns_backend_counts_witness :
    ∃ r c, generate_art (α := Nat) (execute_local fun _ => [("00000", 50)])
        (fun _ k => List.replicate k 0) "aer_simulator" DEFAULT_CONFIG "a" =
        Except.ok r ∧
      r.counts = (fun _ => [("00000", 50)] : Circuit Nat → Counts) c ∧
      r.total_shots = sumValues ((fun _ => [("00000", 50)] : Circuit Nat → Counts) c) :=
  generate_art_returns_backend_counts _ _ _ _ _ (by decide) (fun s k => by simp)

set_option maxRecDepth 100000 in
/-- C7 counterexample: with the default 100-shot configuration and a local
backend whose histogram sums to only 50 shots, `generate_art` returns a
result with `total_shots = 50` instead of failing: the shortfall is
silently accepted in the returned result. -/
theorem generate_art_accepts_shot_shortfall :
    (generate_art (α := Nat) (execute_local fun _ => [("00000", 50)])
        (fun _ k => List.replicate k 0) "aer_simulator" DEFAULT_CONFIG "a").map
        ArtResult.total_shots = Except.ok 50 ∧
    DEFAULT_CONFIG.shots = 100 :=
  ⟨rfl, rfl⟩

/-- Witness for C10 at `3/2` and at `total_shots = 0`. -/
theorem calculate_probability_total_function_witness :
    (calculate_probability 3 2 = (3 : ℚ) / 2 ∧
      calculate_probability 3 2 * 2 = 3) ∧
    calculate_probability 5 0 = 0 := by
  have h := (calculate_probability_total_function 3 2).1 (by norm_num)
  refine ⟨⟨?_, ?_⟩, (calculate_probability_total_function 5 0).2 (by norm_num)⟩
  · rw [h.1]
    norm_num
  · have h2 := h.2
    push_cast at h2
    exact h2

end QGArt
